import Mathlib

/-!
Verification of the VitalSourcePDF acquisition-and-reconstruction pipeline
(`vitalsource.py` and `vitalsource_new.py`) against its specification.

Shallow embedding conventions:
* Python page labels are values of `PLabel`: either a Python `int`
  (`PLabel.num`) or a Python `str` (`PLabel.str`), exactly the two runtime
  types flowing through `existing_page_files` in the scripts.
* Fallible steps return `Option`/`Except`; an uncaught Python exception is an
  `Except.error` (or `none` for an `IndexError` aborting a loop).
* Polling loops over remote state are functions of an observation stream
  `ℕ → α` giving what the loop body would see on its i-th iteration.
-/

/-- A runtime page-label value: Python `int` or Python `str`.  These are the
element types of the `existing_page_files` list built by
`[try_convert_int(str(x.stem)) for x in ebook_files.iterdir()]`. -/
inductive PLabel where
  | num (z : ℤ)
  | str (s : String)
deriving DecidableEq

/-- Whitespace for Python `str.strip` (the kinds that occur here). -/
def isSpaceChar (c : Char) : Bool :=
  c = ' ' || c = '\t' || c = '\n' || c = '\r'

/-- Strip leading and trailing whitespace from a character list. -/
def trimChars (l : List Char) : List Char :=
  ((l.dropWhile isSpaceChar).reverse.dropWhile isSpaceChar).reverse

/-- Decimal digit test. -/
def isDigitChar (c : Char) : Bool :=
  48 ≤ c.toNat && c.toNat ≤ 57

/-- Value of a list of decimal digits. -/
def digitsVal (l : List Char) : ℕ :=
  l.foldl (fun a c => a * 10 + (c.toNat - 48)) 0

/-- Python `int(s)` on a character list: optional surrounding whitespace,
optional sign, at least one decimal digit; `none` models `ValueError`. -/
def pyIntParseChars (l : List Char) : Option ℤ :=
  let t := trimChars l
  let core := match t with
    | c :: rest => if c = '-' || c = '+' then rest else t
    | [] => []
  if core ≠ [] ∧ core.all isDigitChar then
    some (if t.head? = some '-' then -(digitsVal core : ℤ) else (digitsVal core : ℤ))
  else
    none

/-- Python `int(s)` on a string. -/
def pyIntParse (s : String) : Option ℤ :=
  pyIntParseChars s.toList

/-- Modelled from the spec: `fucts/roman.py` (imported by both scripts for
`try_convert_int`) is not under `src/`.  Per spec 4.1 the classifier attempts
an integer parse first and otherwise keeps the stem as an opaque string. -/
def try_convert_int (s : String) : PLabel :=
  match pyIntParse s with
  | some z => .num z
  | none => .str s

/-- Value of a single (lower-case) roman numeral character. -/
def romanCharVal (c : Char) : Option ℕ :=
  if c = 'i' then some 1
  else if c = 'v' then some 5
  else if c = 'x' then some 10
  else if c = 'l' then some 50
  else if c = 'c' then some 100
  else if c = 'd' then some 500
  else if c = 'm' then some 1000
  else none

/-- Subtractive-notation evaluation of a sequence of roman character values:
a value strictly below its successor is subtracted, otherwise added. -/
def romanEvalAux : List ℕ → ℕ
  | [] => 0
  | [v] => v
  | v :: w :: rest =>
    if v < w then romanEvalAux (w :: rest) - v
    else v + romanEvalAux (w :: rest)

/-- Greedy table of canonical roman numeral components. -/
def romanPairs : List (ℕ × String) :=
  [(1000, "m"), (900, "cm"), (500, "d"), (400, "cd"), (100, "c"), (90, "xc"),
   (50, "l"), (40, "xl"), (10, "x"), (9, "ix"), (5, "v"), (4, "iv"), (1, "i")]

/-- Canonical lower-case roman numeral (as characters) for a natural. -/
def natToRomanChars (n : ℕ) : List Char :=
  (romanPairs.foldl
    (fun (acc : List Char × ℕ) p =>
      (acc.1 ++ (List.replicate (acc.2 / p.1) p.2.toList).flatten, acc.2 % p.1))
    ([], n)).1

/-- Case-insensitive lowering restricted to roman letters. -/
def lowerRomanChar (c : Char) : Char :=
  if c = 'I' then 'i'
  else if c = 'V' then 'v'
  else if c = 'X' then 'x'
  else if c = 'L' then 'l'
  else if c = 'C' then 'c'
  else if c = 'D' then 'd'
  else if c = 'M' then 'm'
  else c

/-- Modelled from the spec: the roman parser of `fucts/roman.py` is not under
`src/`.  Per spec 4.1 it is case-insensitive and follows standard
subtractive-notation rules; a string is a roman numeral iff it evaluates to a
nonzero value whose canonical rendering is the (lower-cased) input. -/
def romanValue (s : String) : Option ℕ :=
  let ls := s.toList.map lowerRomanChar
  match ls.mapM romanCharVal with
  | none => none
  | some vs =>
    let n := romanEvalAux vs
    if n ≠ 0 ∧ natToRomanChars n = ls then some n else none

/-- Whether a runtime label value is a roman-numeral string. -/
def labelIsRoman : PLabel → Bool
  | .num _ => false
  | .str s => (romanValue s).isSome

/-- Whether a runtime label value is a Python `int`
(`isinstance(x, int)`). -/
def labelIsInt : PLabel → Bool
  | .num _ => true
  | .str _ => false

/-- Roman value used as sort key (0 for non-romans, which never reach it). -/
def romanKey : PLabel → ℕ
  | .num _ => 0
  | .str s => (romanValue s).getD 0

/-- Integer value used as sort key (0 for strings, which never reach it). -/
def intKey : PLabel → ℤ
  | .num z => z
  | .str _ => 0

/-- Re-interleave: walk the original non-roman segment; opaque strings keep
their position, integer slots are filled from the sorted integer list. -/
def mergeBackOpaque : List PLabel → List PLabel → List PLabel
  | [], ints => ints
  | x :: xs, ints =>
    match x with
    | .str s => .str s :: mergeBackOpaque xs ints
    | .num _ =>
      match ints with
      | [] => mergeBackOpaque xs []
      | i :: is' => i :: mergeBackOpaque xs is'

/-- Modelled from the spec: `fucts/roman.py` (`roman_sort_with_ints` composed
with `move_romans_to_front`, applied by both scripts to the classified label
list) is not under `src/`.  Per spec 4.2 the output is all roman labels first
ordered by numeral value, then the remaining labels with integers ascending
and opaque strings keeping their relative input positions. -/
def pageSequencer (l : List PLabel) : List PLabel :=
  let romans := l.filter labelIsRoman
  let nonRomans := l.filter (fun x => !labelIsRoman x)
  let ints := nonRomans.filter labelIsInt
  let sortedInts := List.insertionSort (fun a b => intKey a ≤ intKey b) ints
  List.insertionSort (fun a b => romanKey a ≤ romanKey b) romans ++
    mergeBackOpaque nonRomans sortedInts

/-- The `page_urls` set after a run that resolved the given `(label, URL)`
pairs in order; `set.add` is insertion into a set of pairs. -/
def page_urls_after (resolutions : List (PLabel × String)) :
    Finset (PLabel × String) :=
  resolutions.foldl (fun s r => insert r s) ∅

/-- Name of the on-disk download file for a record's label:
`dl_file = ebook_files / f'[page].jpg'` uses only the label. -/
def dl_file_name : PLabel → String
  | .num z => toString z ++ ".jpg"
  | .str s => s ++ ".jpg"

/-- Download target of a record, as the code computes it from the tuple. -/
def dl_target (r : PLabel × String) : String :=
  dl_file_name r.1

/-- One iteration's effect on `consecutive_failures`: the pair is the new
counter and whether the long cooldown (`random_delay(30, 0.5)`) was taken. -/
def consecStep (consecutive_failures : ℕ) (resolved : Bool) : ℕ × Bool :=
  if resolved then
    (0, false)
  else
    let c := consecutive_failures + 1
    if 5 ≤ c then (0, true) else (c, false)

/-- Counter value after a sequence of per-page outcomes
(`true` = URL resolved), starting from the initial 0. -/
def consecRun (outcomes : List Bool) : ℕ :=
  outcomes.foldl (fun c o => (consecStep c o).1) 0

/-- A PDF file on disk: `emptyFile` models the untouched `mkstemp` output
(zero bytes), `doc n` a well-formed PDF with `n` pages. -/
inductive PdfFile where
  | emptyFile
  | doc (pages : ℕ)
deriving DecidableEq

/-- File left at `raw_pdf_file` after the OCR phase.  `ocr_exit` is the
`ocrmypdf` exit status (discarded by the code), `ocr_written` what the OCR
engine wrote to the temp path (`none` = it failed before writing output). -/
def ocr_phase (skip_ocr : Bool) (raw_doc : ℕ) (ocr_exit : ℤ)
    (ocr_written : Option ℕ) : PdfFile :=
  if skip_ocr then .doc raw_doc
  else
    match ocr_written with
    | some d => .doc d
    | none => .emptyFile

/-- `PdfReader` on an opened file: raises (here: `Except.error`) when the
file is empty. -/
def PdfReader_open : PdfFile → Except String ℕ
  | .doc d => .ok d
  | .emptyFile => .error "EmptyFileError"

/-- The metadata phase reading whatever the OCR phase left at
`raw_pdf_file`. -/
def metadata_phase (skip_ocr : Bool) (raw_doc : ℕ) (ocr_exit : ℤ)
    (ocr_written : Option ℕ) : Except String ℕ :=
  PdfReader_open (ocr_phase skip_ocr raw_doc ocr_exit ocr_written)

/-- How one download attempt ends, at the granularity of the statements that
can change the on-disk file. -/
inductive DlEvent where
  | noData
  | writeRaises
  | decodeRaises
  | tooSmall
  | saveRaises
  | saved
deriving DecidableEq

/-- Content of `dl_file` for this label after one attempt, given its content
before the attempt (`none` = no file), the raw response bytes and the
re-encoded bytes.  `noData`: the body never arrived, nothing is touched;
`writeRaises`/`decodeRaises`/`saveRaises`: the `except` handler unlinks the
(existing) file; `tooSmall`: width < 1000, the code just retries, leaving the
raw bytes in place; `saved`: the validated re-encode. -/
def dl_attempt_file (pre : Option String) (raw_bytes reencoded : String) :
    DlEvent → Option String
  | .noData => pre
  | .writeRaises => none
  | .decodeRaises => none
  | .tooSmall => some raw_bytes
  | .saveRaises => none
  | .saved => some reencoded

/-- Whether the attempt ended in a raised exception during persisting or
validating (the `except Exception` branch). -/
def dl_event_raises : DlEvent → Bool
  | .writeRaises => true
  | .decodeRaises => true
  | .saveRaises => true
  | _ => false

/-- Errors of one `get_num_pages` body execution: `caught` is the
`except (JavascriptException, TypeError, ...)` branch (sleep and retry),
`valueError` the uncaught `int()` failure, `maxRetries` the
`vitalsource_new.py` exhaustion error. -/
inductive GnpErr where
  | caught
  | valueError
  | maxRetries
deriving DecidableEq

/-- Python `str.split(sep)` for a one-character separator. -/
def splitOnCharAll (sep : Char) : List Char → List (List Char)
  | [] => [[]]
  | c :: rest =>
    let r := splitOnCharAll sep rest
    if c = sep then [] :: r
    else
      match r with
      | h :: t => (c :: h) :: t
      | [] => [[c]]

/-- `int(total_text.split('/')[-1].strip())` after
`total_text = ....innerHTML.strip()`: take the part after the last slash
when one is present. -/
def parse_total (raw : String) : Option ℤ :=
  let t := trimChars raw.toList
  let core :=
    if t.contains '/' then
      match (splitOnCharAll '/' t).getLast? with
      | some x => trimChars x
      | none => t
    else t
  pyIntParseChars core

/-- What one body execution observes: `totalObs = none` models a
`JavascriptException` reading the total-pages element; `curObs = none` a
`JavascriptException` reading the current-page input, `some none` a null
value, `some (some v)` the string value `v`. -/
def get_num_pages_body (totalObs : Option String)
    (curObs : Option (Option String)) : Except GnpErr (PLabel × ℤ) :=
  match totalObs with
  | none => .error .caught
  | some raw =>
    match parse_total raw with
    | none => .error .valueError
    | some total =>
      let current : PLabel :=
        match curObs with
        | none => .num 0
        | some none => .num 0
        | some (some v) => if v = "" then .num 0 else .str v
      .ok (current, total)

/-- The `vitalsource_new.py` retry wrapper: up to `max_retries = 10` body
executions; a caught error sleeps and retries, exhaustion raises
`Exception('Failed to get page numbers after maximum retries')`. -/
def gnp_new_go (obs : ℕ → Option String × Option (Option String)) :
    ℕ → ℕ → Except GnpErr (PLabel × ℤ)
  | _, 0 => .error .maxRetries
  | i, fuel + 1 =>
    match get_num_pages_body (obs i).1 (obs i).2 with
    | .ok r => .ok r
    | .error .valueError => .error .valueError
    | .error .maxRetries => .error .maxRetries
    | .error .caught => gnp_new_go obs (i + 1) fuel

/-- `get_num_pages` of `vitalsource_new.py` over a stream of DOM
observations. -/
def get_num_pages_new (obs : ℕ → Option String × Option (Option String)) :
    Except GnpErr (PLabel × ℤ) :=
  gnp_new_go obs 0 10

/-- The `while True` loop of `get_num_pages` in `vitalsource.py` exits on
iteration `n` only if the body's exception is not in the caught class; with
every body execution caught, it loops forever.  This predicate says the loop
eventually exits. -/
def get_num_pages_old_exits
    (obs : ℕ → Option String × Option (Option String)) : Prop :=
  ∃ n, get_num_pages_body (obs n).1 (obs n).2 ≠ .error .caught

/-- The `while len(driver.find_elements(...))` loader poll of
`load_book_page` in `vitalsource.py` has no cap; it exits only when some
poll sees zero loader elements. -/
def loader_old_exits (elems : ℕ → ℕ) : Prop :=
  ∃ n, elems n = 0

/-- The capped loader poll of `load_book_page` in `vitalsource_new.py`:
polls until no loader element is seen, breaking after `wait_count > 30`;
result is the number of sleeps performed. -/
def loader_new_go (elems : ℕ → ℕ) : ℕ → ℕ → ℕ
  | i, 0 => i
  | i, fuel + 1 => if elems i = 0 then i else loader_new_go elems (i + 1) fuel

/-- Number of loader polls `vitalsource_new.py` sleeps through (≤ 31). -/
def loader_new_waits (elems : ℕ → ℕ) : ℕ :=
  loader_new_go elems 0 31

/-- The `while not request.response and wait < 30` body-arrival wait used by
the metadata scrape in both scripts; `arrived n` tells whether the response
was present at poll `n`. -/
def resp_wait_go (arrived : ℕ → Bool) : ℕ → ℕ → ℕ
  | i, 0 => i
  | i, fuel + 1 => if arrived i then i else resp_wait_go arrived (i + 1) fuel

/-- Number of one-second polls the response wait performs (≤ 30). -/
def resp_wait_polls (arrived : ℕ → Bool) : ℕ :=
  resp_wait_go arrived 0 30

/-- Whether a request URL starts with the given pattern
(`request.url.startswith(...)`). -/
def startsWithChars : List Char → List Char → Bool
  | [], _ => true
  | _ :: _, [] => false
  | p :: ps, c :: cs => p = c && startsWithChars ps cs

/-- Python `url.startswith(pat)`. -/
def pyStartsWith (url pat : String) : Bool :=
  startsWithChars pat.toList url.toList

/-- `base_url = request.url.split('/'); del base_url[-1]; '/'.join(base_url)`. -/
def base_url_of (url : String) : String :=
  (List.intercalate ['/'] ((splitOnCharAll '/' url.toList).dropLast)).asString

/-- One scan of the request log: `base_url` is overwritten by each matching
request, so it ends at the last match, else keeps its previous value. -/
def scan_requests (reqs : List String) (pat : String) (b : Option String) :
    Option String :=
  reqs.foldl (fun acc r => if pyStartsWith r pat then some (base_url_of r) else acc) b

/-- One `page_retry` round: the three `find_img_retry` scans, over the log
snapshots `i`, `i+1`, `i+2`. -/
def find_img_round (obs : ℕ → List String) (pat : String) (i : ℕ)
    (b : Option String) : Option String :=
  scan_requests (obs (i + 2)) pat (scan_requests (obs (i + 1)) pat
    (scan_requests (obs i) pat b))

/-- The full per-page URL resolution: up to three rounds, stopping after a
round that has found a match (`if base_url: break` — a match starts with the
non-empty pattern, so truthiness coincides with being present); `none` is
the unresolved outcome. -/
def resolve_url (obs : ℕ → List String) (pat : String) : Option String :=
  match find_img_round obs pat 0 none with
  | some u => some u
  | none =>
    match find_img_round obs pat 3 none with
    | some u => some u
    | none => find_img_round obs pat 6 none

/-- Effect of one main-loop iteration's outcome on `(failed_pages,
page_urls)`: an unresolved page is deferred, a resolved one recorded. -/
def main_pass_record (page_num : ℕ) (cur : PLabel) (resolved : Option String)
    (failed_pages : Finset ℕ) (urls : Finset (PLabel × String)) :
    Finset ℕ × Finset (PLabel × String) :=
  match resolved with
  | none => (insert page_num failed_pages, urls)
  | some u => (failed_pages, insert (cur, u) urls)

/-- The `Re-doing failed pages` pass of `vitalsource.py` (271-300):
`for page in failed_pages:` walks the set in its iteration order
(`failed_iter`); each deferred page is navigated to and the same resolution
re-run, recording `(current page, base_url)` on success.  On a re-failure
the code executes `failed_pages.add(page_num)` with the *stale* main-loop
cursor: if that value is already in the set being iterated
(`page_num_stale ∈ failed_set`) the add changes nothing and iteration
continues, but if it is new the set changes size mid-iteration and CPython's
set iterator raises `RuntimeError` at its next step — before any remaining
deferred page is retried — which is uncaught and kills the run. -/
def redo_failed_pages (failed_iter : List ℕ) (page_num_stale : ℕ)
    (failed_set : Finset ℕ) (obsOf : ℕ → ℕ → List String)
    (curOf : ℕ → PLabel) (pat : String)
    (urls : Finset (PLabel × String)) :
    Except String (Finset (PLabel × String)) :=
  match failed_iter with
  | [] => .ok urls
  | p :: rest =>
    match resolve_url (obsOf p) pat with
    | some u =>
      redo_failed_pages rest page_num_stale failed_set obsOf curOf pat
        (insert (curOf p, u) urls)
    | none =>
      if page_num_stale ∈ failed_set then
        redo_failed_pages rest page_num_stale failed_set obsOf curOf pat urls
      else .error "RuntimeError: Set changed size during iteration"

/-- The `Re-doing failed pages` pass of `vitalsource_new.py` (396-434): the
same walk, but its re-failure branch only logs — it never mutates
`failed_pages` — so every deferred page is retried and the pass always
completes. -/
def redo_failed_pages_new (failed_iter : List ℕ)
    (obsOf : ℕ → ℕ → List String) (curOf : ℕ → PLabel) (pat : String)
    (urls : Finset (PLabel × String)) : Finset (PLabel × String) :=
  match failed_iter with
  | [] => urls
  | p :: rest =>
    match resolve_url (obsOf p) pat with
    | some u =>
      redo_failed_pages_new rest obsOf curOf pat (insert (curOf p, u) urls)
    | none => redo_failed_pages_new rest obsOf curOf pat urls

/-- One `pagelabels.PageLabelScheme(startpage, style, prefix, firstpagenum)`
range. -/
structure PageLabelScheme where
  startpage : ℕ
  style : String
  prefixText : Option String
  firstpagenum : ℕ
deriving DecidableEq

/-- `romans_end`: the count of `str`-typed entries of the sequenced list. -/
def romans_end_of (existing_page_files : List PLabel) : ℕ :=
  existing_page_files.countP (fun p => !labelIsInt p)

/-- The page-label ranges the reconstruction phase applies. -/
def page_label_schemes (existing_page_files : List PLabel) :
    List PageLabelScheme :=
  let romans_end := romans_end_of existing_page_files
  if 0 < romans_end then
    [ ⟨0, "none", some "Cover", 1⟩,
      ⟨1, "roman lowercase", none, 1⟩,
      ⟨romans_end, "arabic", none, 1⟩ ]
  else []

/-- Count of labels that are actual roman numerals (what the claim calls
`R`). -/
def roman_label_count (l : List PLabel) : ℕ :=
  l.countP labelIsRoman

/-- PDF page-label semantics: the range governing a (0-based) page index is
the last applied range whose start page is at or before it. -/
def scheme_for (schemes : List PageLabelScheme) (page : ℕ) :
    Option PageLabelScheme :=
  (schemes.filter (fun sc => sc.startpage ≤ page)).getLast?

/-- `non_number_pages` as the blank-page phase sees it: the scrape-phase
count when positive, else the number of `str` entries in the list. -/
def nnpOf (scraped : ℕ) (existing_page_files : List PLabel) : ℕ :=
  if scraped = 0 then
    existing_page_files.countP (fun p => !labelIsInt p)
  else scraped

/-- The loop over a remaining suffix of the sequenced list, with the full
list `L` fixed; returns the labels of the blank images created, or `none`
when `existing_page_files[page_i - 1]` raises `IndexError`. -/
def gap_fill_go (L : List PLabel) (nnp : ℕ) : List PLabel → Option (List ℤ)
  | [] => some []
  | p :: rest =>
    match p with
    | .str _ => gap_fill_go L nnp rest
    | .num k =>
      if 0 < k then
        match L[(k - 1).toNat + nnp]? with
        | none => none
        | some (.str _) => gap_fill_go L nnp rest
        | some (.num j) =>
          if j + nnp ≠ k + nnp - 1 then
            match gap_fill_go L nnp rest with
            | none => none
            | some cs => some ((k - 1) :: cs)
          else gap_fill_go L nnp rest
      else gap_fill_go L nnp rest

/-- The whole blank-page check pass over the sequenced label list. -/
def gap_fill_pass (existing_page_files : List PLabel) (nnp : ℕ) :
    Option (List ℤ) :=
  gap_fill_go existing_page_files nnp existing_page_files

lemma mergeBackOpaque_perm (l ints : List PLabel)
    (h : l.countP labelIsInt = ints.length) :
    List.Perm (mergeBackOpaque l ints)
      (l.filter (fun x => !labelIsInt x) ++ ints) := by
  induction l generalizing ints with
  | nil =>
    simp only [List.countP_nil] at h
    simp [mergeBackOpaque, List.eq_nil_of_length_eq_zero h.symm]
  | cons x xs ih =>
    cases x with
    | str s =>
      have hc : xs.countP labelIsInt = ints.length := by
        simpa [List.countP_cons, labelIsInt] using h
      simpa [mergeBackOpaque, labelIsInt] using (ih ints hc).cons (.str s)
    | num z =>
      cases ints with
      | nil =>
        exfalso
        simp [List.countP_cons, labelIsInt] at h
      | cons i is' =>
        have hc : xs.countP labelIsInt = is'.length := by
          have := h
          simp only [List.countP_cons, labelIsInt, if_pos, List.length_cons] at this
          omega
        have step : mergeBackOpaque (PLabel.num z :: xs) (i :: is') =
            i :: mergeBackOpaque xs is' := rfl
        rw [step]
        have h1 : List.Perm (i :: mergeBackOpaque xs is')
            (i :: (xs.filter (fun x => !labelIsInt x) ++ is')) :=
          (ih is' hc).cons i
        refine h1.trans ?_
        have h2 : (PLabel.num z :: xs).filter (fun x => !labelIsInt x) =
            xs.filter (fun x => !labelIsInt x) := by
          simp [labelIsInt]
        rw [h2]
        exact List.perm_middle.symm

/-- C5: the Page Sequencer's output is a permutation of its input: every
label occurs in the output exactly as often as in the input, none is dropped
or duplicated, and (being a pure function) the result is determined by the
input ordering. -/
theorem pageSequencer_perm (l : List PLabel) :
    (pageSequencer l).Perm l ∧
      ∀ x : PLabel, (pageSequencer l).count x = l.count x := by
  have hperm : (pageSequencer l).Perm l := by
    unfold pageSequencer
    have hr : List.Perm (List.insertionSort (fun a b => romanKey a ≤ romanKey b)
        (l.filter labelIsRoman)) (l.filter labelIsRoman) :=
      List.perm_insertionSort _ _
    set nonRomans := l.filter (fun x => !labelIsRoman x) with hnr
    have hlen : nonRomans.countP labelIsInt =
        (List.insertionSort (fun a b => intKey a ≤ intKey b)
          (nonRomans.filter labelIsInt)).length := by
      rw [List.length_insertionSort, ← List.countP_eq_length_filter]
    have hm : List.Perm (mergeBackOpaque nonRomans
        (List.insertionSort (fun a b => intKey a ≤ intKey b)
          (nonRomans.filter labelIsInt)))
        (nonRomans.filter (fun x => !labelIsInt x) ++
          List.insertionSort (fun a b => intKey a ≤ intKey b)
            (nonRomans.filter labelIsInt)) :=
      mergeBackOpaque_perm _ _ hlen
    have hsi : List.Perm (List.insertionSort (fun a b => intKey a ≤ intKey b)
        (nonRomans.filter labelIsInt)) (nonRomans.filter labelIsInt) :=
      List.perm_insertionSort _ _
    have hm2 : List.Perm (mergeBackOpaque nonRomans
        (List.insertionSort (fun a b => intKey a ≤ intKey b)
          (nonRomans.filter labelIsInt))) nonRomans := by
      refine (hm.trans ((List.Perm.refl _).append hsi)).trans ?_
      have := List.filter_append_perm (fun x => !labelIsInt x) nonRomans
      refine List.Perm.trans ?_ this
      refine List.Perm.append (List.Perm.refl _) ?_
      apply List.Perm.of_eq
      apply List.filter_congr
      intro a _
      cases a <;> simp [labelIsInt]
    refine (hr.append hm2).trans ?_
    exact List.filter_append_perm _ l
  exact ⟨hperm, fun x => hperm.count_eq x⟩

/-! ## The `page_urls` store (vitalsource.py 208-236, vitalsource_new.py 306-356)

`page_urls = set()` accumulates `(page, base_url)` tuples via
`page_urls.add((page, base_url))`; the download loop later writes each record
to `ebook_files / f-string of page + ".jpg"`. -/

lemma mem_page_urls_after (resolutions : List (PLabel × String))
    (r : PLabel × String) :
    r ∈ page_urls_after resolutions ↔ r ∈ resolutions := by
  suffices h : ∀ (l : List (PLabel × String)) (s : Finset (PLabel × String)),
      r ∈ l.foldl (fun s r => insert r s) s ↔ r ∈ s ∨ r ∈ l by
    simpa [page_urls_after] using h resolutions ∅
  intro l
  induction l with
  | nil => simp
  | cons x xs ih =>
    intro s
    simp only [List.foldl_cons, ih, Finset.mem_insert, List.mem_cons]
    tauto

/-- C4 counterexample: after resolving label `1` twice with different URLs,
the store holds two distinct records with the same label — duplicates
coexist instead of overwriting, because the set is keyed by the whole
`(label, URL)` pair. -/
theorem c4_counterexample :
    ¬ (∀ r1 ∈ page_urls_after [(PLabel.num 1, "a"), (PLabel.num 1, "b")],
        ∀ r2 ∈ page_urls_after [(PLabel.num 1, "a"), (PLabel.num 1, "b")],
          r1.1 = r2.1 → r1 = r2) := by
  intro h
  have h1 : (PLabel.num 1, "a") ∈
      page_urls_after [(PLabel.num 1, "a"), (PLabel.num 1, "b")] := by decide
  have h2 : (PLabel.num 1, "b") ∈
      page_urls_after [(PLabel.num 1, "a"), (PLabel.num 1, "b")] := by decide
  have := h _ h1 _ h2 rfl
  simp at this

/-- C4 amended: the store's records are unique as `(label, URL)` pairs — a
record is in the store iff it was resolved at some point, so re-adding an
identical pair changes nothing, while equal labels with different URLs
coexist; the on-disk download file is keyed by the label alone, so
duplicate-label records share one target file. -/
theorem c4_amended (resolutions : List (PLabel × String))
    (r : PLabel × String) (p : PLabel) (u u' : String) :
    (r ∈ page_urls_after resolutions ↔ r ∈ resolutions) ∧
      dl_target (p, u) = dl_target (p, u') := by
  exact ⟨mem_page_urls_after resolutions r, rfl⟩

/-! ## Consecutive-failure circuit breaker (vitalsource_new.py 311-358)

The main acquisition loop of `vitalsource_new.py` tracks
`consecutive_failures`; on an unresolved page it increments and, at
`max_consecutive_failures = 5`, takes one long cooldown and resets to 0; a
resolved page resets it to 0. -/

lemma consecRun_le (outcomes : List Bool) (c0 : ℕ) (h : c0 ≤ 4) :
    outcomes.foldl (fun c o => (consecStep c o).1) c0 ≤ 4 := by
  induction outcomes generalizing c0 with
  | nil => simpa using h
  | cons o os ih =>
    simp only [List.foldl_cons]
    apply ih
    cases o with
    | true => simp [consecStep]
    | false =>
      by_cases h5 : 5 ≤ c0 + 1
      · simp [consecStep, h5]
      · simp only [consecStep, Bool.false_eq_true, if_false, if_neg h5]
        omega

/-- C8: the consecutive-unresolved-failure counter of the
`vitalsource_new.py` acquisition loop never exceeds the threshold — after any
outcome sequence the stored counter is at most 4 — a success resets it to 0,
and a failure either increments it (below the threshold, no cooldown) or, on
reaching 5, takes exactly one long cooldown and resets it to 0; no branch
aborts the run. -/
theorem consecutive_failures_invariant (outcomes : List Bool)
    (c : ℕ) :
    consecRun outcomes ≤ 4 ∧
      consecStep c true = (0, false) ∧
      consecStep c false = (if 4 ≤ c then (0, true) else (c + 1, false)) := by
  refine ⟨consecRun_le outcomes 0 (by omega), rfl, ?_⟩
  have h45 : (5 ≤ c + 1) = (4 ≤ c) := by
    apply propext; omega
  simp [consecStep, h45]

/-! ## OCR phase and metadata phase (vitalsource.py 431-446, vitalsource_new.py 599-613)

`subprocess.run(f'ocrmypdf ...', shell=True)` is called without `check=True`
— the exit status is discarded — and then `raw_pdf_file` is unconditionally
reassigned to the `tempfile.mkstemp` output path, which `ocrmypdf` may never
have written.  The next phase does `PdfReader(open(raw_pdf_file, 'rb'))`,
which raises on an empty file. -/

/-- C9 counterexample: when OCR is enabled and the OCR engine fails without
writing its output, the subsequent metadata phase raises instead of falling
back to the non-OCR document — reconstruction does not complete for this OCR
outcome. -/
theorem c9_counterexample :
    metadata_phase false 5 1 none = .error "EmptyFileError" := by
  rfl

/-- C9 amended: the OCR exit status is ignored and the run unconditionally
continues with the OCR output path: with `--skip-ocr` the raw document is
used, a successful OCR output is used, but an OCR failure that leaves the
temp file empty makes the metadata phase raise `EmptyFileError` — the run
does not degrade to skipping OCR. -/
theorem c9_amended (raw_doc d : ℕ) (z z' : ℤ) (w : Option ℕ) :
    metadata_phase true raw_doc z w = .ok raw_doc ∧
      metadata_phase false raw_doc z (some d) = .ok d ∧
      metadata_phase false raw_doc z none = .error "EmptyFileError" ∧
      metadata_phase false raw_doc z w = metadata_phase false raw_doc z' w := by
  exact ⟨rfl, rfl, rfl, rfl⟩

/-! ## Per-attempt on-disk state of a download (vitalsource.py 306-374, vitalsource_new.py 443-531)

Inside one retry of the image-download loop the code writes the response body
to `dl_file`, opens and validates it, and re-encodes on success; the
`except Exception` handler does `dl_file.unlink()` when the file exists. -/

/-- C10 counterexample: a failed attempt does not restore the pre-attempt
state — when a good file for the label already existed (e.g. from a
duplicate-label record or an earlier small-width attempt), an exception
during decoding deletes it, so the on-disk state is not "as if the attempt
had not happened". -/
theorem c10_counterexample :
    dl_attempt_file (some "prior") "raw" "re" DlEvent.decodeRaises = none ∧
      ¬ dl_attempt_file (some "prior") "raw" "re" DlEvent.decodeRaises
          = some "prior" := by
  exact ⟨rfl, by simp [dl_attempt_file]⟩

/-- C10 amended: whenever persisting or validating raises during a download
attempt, the handler deletes the file for that label, so after the failed
attempt there is no file at all for the label — no corrupt or partial file
survives; this equals the pre-attempt state only when no file existed
before the attempt. -/
theorem c10_amended (pre : Option String) (raw_bytes reencoded : String) :
    dl_attempt_file pre raw_bytes reencoded .writeRaises = none ∧
      dl_attempt_file pre raw_bytes reencoded .decodeRaises = none ∧
      dl_attempt_file pre raw_bytes reencoded .saveRaises = none := by
  exact ⟨rfl, rfl, rfl⟩

/-! ## Reading the page counters: `get_num_pages` (vitalsource.py 68-96, vitalsource_new.py 116-148)

One loop-body execution reads the total-pages element's innerHTML and the
current-page input's value.  A missing element raises `JavascriptException`
(caught: retry); a non-numeric total raises `ValueError` from `int(...)`
(uncaught).  A missing, erroring, empty or falsy current-page value becomes
the integer 0.  `vitalsource.py` wraps the body in `while True`;
`vitalsource_new.py` caps it at `max_retries = 10`. -/

lemma gnp_new_go_congr (obs obs' : ℕ → Option String × Option (Option String))
    (fuel i : ℕ) (h : ∀ j, i ≤ j → j < i + fuel → obs j = obs' j) :
    gnp_new_go obs i fuel = gnp_new_go obs' i fuel := by
  induction fuel generalizing i with
  | zero => rfl
  | succ f ih =>
    have hi : obs i = obs' i := h i le_rfl (by omega)
    simp only [gnp_new_go, hi]
    cases get_num_pages_body (obs' i).1 (obs' i).2 with
    | ok r => rfl
    | error e =>
      cases e with
      | valueError => rfl
      | maxRetries => rfl
      | caught =>
        exact ih (i + 1) (fun j h1 h2 => h j (by omega) (by omega))

lemma loader_new_go_congr (elems elems' : ℕ → ℕ) (fuel i : ℕ)
    (h : ∀ j, i ≤ j → j < i + fuel → elems j = elems' j) :
    loader_new_go elems i fuel = loader_new_go elems' i fuel := by
  induction fuel generalizing i with
  | zero => rfl
  | succ f ih =>
    have hi : elems i = elems' i := h i le_rfl (by omega)
    simp only [loader_new_go, hi]
    split
    · rfl
    · exact ih (i + 1) (fun j h1 h2 => h j (by omega) (by omega))

lemma resp_wait_go_congr (arrived arrived' : ℕ → Bool) (fuel i : ℕ)
    (h : ∀ j, i ≤ j → j < i + fuel → arrived j = arrived' j) :
    resp_wait_go arrived i fuel = resp_wait_go arrived' i fuel := by
  induction fuel generalizing i with
  | zero => rfl
  | succ f ih =>
    have hi : arrived i = arrived' i := h i le_rfl (by omega)
    simp only [resp_wait_go, hi]
    split
    · rfl
    · exact ih (i + 1) (fun j h1 h2 => h j (by omega) (by omega))

/-- C3 counterexample: not every polling wait in the program is bounded.  In
`vitalsource.py`, the `while True` of `get_num_pages` never exits when every
iteration's counter read keeps raising a caught exception, and the loader
poll of `load_book_page` never exits when a loader element stays present at
every poll. -/
theorem c3_counterexample :
    ¬ get_num_pages_old_exits (fun _ => (none, none)) ∧
      ¬ loader_old_exits (fun _ => 1) := by
  constructor
  · intro h
    obtain ⟨n, hn⟩ := h
    exact hn rfl
  · intro h
    obtain ⟨n, hn⟩ := h
    exact one_ne_zero hn

/-- C3 amended: the poll loops of `vitalsource_new.py` are capped — the
counter-read wrapper inspects at most its first 10 observations, the loader
poll at most 31, and the response-body wait (present in both scripts) at
most 30, so each returns after finitely many iterations — but the
counter-read and loader polls of `vitalsource.py` have no attempt cap and
need not return. -/
theorem c3_amended (obs obs' : ℕ → Option String × Option (Option String))
    (elems elems' : ℕ → ℕ) (arrived arrived' : ℕ → Bool)
    (hobs : ∀ j, j < 10 → obs j = obs' j)
    (helems : ∀ j, j < 31 → elems j = elems' j)
    (harr : ∀ j, j < 30 → arrived j = arrived' j) :
    get_num_pages_new obs = get_num_pages_new obs' ∧
      loader_new_waits elems = loader_new_waits elems' ∧
      resp_wait_polls arrived = resp_wait_polls arrived' := by
  refine ⟨?_, ?_, ?_⟩
  · exact gnp_new_go_congr obs obs' 10 0 (fun j _ h2 => hobs j (by omega))
  · exact loader_new_go_congr elems elems' 31 0 (fun j _ h2 => helems j (by omega))
  · exact resp_wait_go_congr arrived arrived' 30 0 (fun j _ h2 => harr j (by omega))

/-- Closed instance of the C3 amended theorem at concrete observation
streams. -/
theorem c3_amended_witness :
    get_num_pages_new (fun _ => (none, none)) =
        get_num_pages_new (fun j => if 10 ≤ j then (some "9", none) else (none, none)) ∧
      loader_new_waits (fun _ => 1) =
        loader_new_waits (fun j => if 31 ≤ j then 0 else 1) ∧
      resp_wait_polls (fun _ => false) =
        resp_wait_polls (fun j => decide (30 ≤ j)) := by
  exact c3_amended _ _ _ _ _ _
    (fun j hj => by simp [Nat.not_le.mpr hj])
    (fun j hj => by simp [Nat.not_le.mpr hj])
    (fun j hj => by simp [Nat.not_le.mpr hj, Nat.not_le])

/-- C6: whenever the total-pages element is readable (its text parses to a
total) but the current-page value is absent — the element is missing or the
script errors (`curObs = none`), the value is null, or it is the empty
string — the `get_num_pages` body returns current page 0 with that total
instead of failing, and so does the capped `vitalsource_new.py` wrapper on
a stream opening with that observation. -/
theorem get_num_pages_absent_current (t : String) (total : ℤ)
    (curObs : Option (Option String)) (ht : parse_total t = some total)
    (hc : curObs = none ∨ curObs = some none ∨ curObs = some (some "")) :
    get_num_pages_body (some t) curObs = .ok (.num 0, total) ∧
      get_num_pages_new (fun _ => (some t, curObs)) = .ok (.num 0, total) := by
  have hbody : get_num_pages_body (some t) curObs = .ok (.num 0, total) := by
    rcases hc with h | h | h <;>
      simp [get_num_pages_body, h, ht]
  refine ⟨hbody, ?_⟩
  simp only [get_num_pages_new, gnp_new_go, hbody]

/-- Closed instance of C6 at the observed counter format `"/ 755"` with a
missing current-page element. -/
theorem get_num_pages_absent_current_witness :
    get_num_pages_body (some "/ 755") none = .ok (.num 0, 755) ∧
      get_num_pages_new (fun _ => (some "/ 755", none)) = .ok (.num 0, 755) := by
  exact get_num_pages_absent_current "/ 755" 755 none (by decide) (Or.inl rfl)

/-! ## Trace matching and the deferred-page pass (vitalsource.py 208-300)

Per page, the main acquisition loop scans `driver.requests` for a URL
starting with the jigsaw images address, in `3 × 3` scan attempts
(`page_retry` × `find_img_retry`), each scan seeing a possibly grown request
log; `base_url` keeps the last match, stripped of its final path segment.
An unresolved page is added to `failed_pages` and the run continues; after
the main loop, `for page in failed_pages:` retries exactly the deferred
pages. -/

lemma scan_requests_none (reqs : List String) (pat : String) (b : Option String)
    (h : ∀ r ∈ reqs, pyStartsWith r pat = false) :
    scan_requests reqs pat b = b := by
  induction reqs generalizing b with
  | nil => rfl
  | cons r rs ih =>
    have hr : pyStartsWith r pat = false := h r (by simp)
    simp only [scan_requests, List.foldl_cons, hr, if_false]
    exact ih b (fun x hx => h x (by simp [hx]))

lemma find_img_round_none (obs : ℕ → List String) (pat : String) (i : ℕ)
    (b : Option String)
    (h0 : ∀ r ∈ obs i, pyStartsWith r pat = false)
    (h1 : ∀ r ∈ obs (i + 1), pyStartsWith r pat = false)
    (h2 : ∀ r ∈ obs (i + 2), pyStartsWith r pat = false) :
    find_img_round obs pat i b = b := by
  unfold find_img_round
  rw [scan_requests_none _ _ _ h0]
  rw [scan_requests_none _ _ _ h1]
  rw [scan_requests_none _ _ _ h2]

lemma redo_new_mono (failed_iter : List ℕ) (obsOf : ℕ → ℕ → List String)
    (curOf : ℕ → PLabel) (pat : String) (urls : Finset (PLabel × String))
    (x : PLabel × String) (hx : x ∈ urls) :
    x ∈ redo_failed_pages_new failed_iter obsOf curOf pat urls := by
  induction failed_iter generalizing urls with
  | nil => simpa [redo_failed_pages_new] using hx
  | cons p rest ih =>
    simp only [redo_failed_pages_new]
    cases hres : resolve_url (obsOf p) pat with
    | none => exact ih urls hx
    | some u => exact ih _ (Finset.mem_insert_of_mem hx)

lemma redo_new_mem (failed_iter : List ℕ) (obsOf : ℕ → ℕ → List String)
    (curOf : ℕ → PLabel) (pat : String) (urls : Finset (PLabel × String))
    (p : ℕ) (u : String) (hp : p ∈ failed_iter)
    (hres : resolve_url (obsOf p) pat = some u) :
    (curOf p, u) ∈ redo_failed_pages_new failed_iter obsOf curOf pat urls := by
  induction failed_iter generalizing urls with
  | nil => cases hp
  | cons q rest ih =>
    rcases List.mem_cons.mp hp with h | h
    · subst h
      simp only [redo_failed_pages_new, hres]
      exact redo_new_mono rest obsOf curOf pat _ _ (Finset.mem_insert_self _ _)
    · simp only [redo_failed_pages_new]
      cases hq : resolve_url (obsOf q) pat with
      | none => exact ih urls h
      | some v => exact ih _ h

lemma redo_ok_of (failed_iter : List ℕ) (page_num_stale : ℕ)
    (failed_set : Finset ℕ) (obsOf : ℕ → ℕ → List String)
    (curOf : ℕ → PLabel) (pat : String) (urls : Finset (PLabel × String))
    (hsafe : page_num_stale ∈ failed_set ∨
      ∀ q ∈ failed_iter, (resolve_url (obsOf q) pat).isSome) :
    ∃ s, redo_failed_pages failed_iter page_num_stale failed_set obsOf curOf
        pat urls = .ok s ∧
      (∀ x ∈ urls, x ∈ s) ∧
      ∀ p ∈ failed_iter, ∀ u, resolve_url (obsOf p) pat = some u →
        (curOf p, u) ∈ s := by
  induction failed_iter generalizing urls with
  | nil =>
    exact ⟨urls, rfl, fun x hx => hx, fun p hp => absurd hp (List.not_mem_nil p)⟩
  | cons q rest ih =>
    have hsafe' : page_num_stale ∈ failed_set ∨
        ∀ p ∈ rest, (resolve_url (obsOf p) pat).isSome := by
      rcases hsafe with h | h
      · exact Or.inl h
      · exact Or.inr (fun p hp => h p (by simp [hp]))
    cases hq : resolve_url (obsOf q) pat with
    | some u =>
      obtain ⟨s, hrun, hsub, hmem⟩ := ih (insert (curOf q, u) urls) hsafe'
      refine ⟨s, ?_, ?_, ?_⟩
      · simp only [redo_failed_pages, hq]
        exact hrun
      · exact fun x hx => hsub x (Finset.mem_insert_of_mem hx)
      · intro p hp v hv
        rcases List.mem_cons.mp hp with h | h
        · subst h
          rw [hq] at hv
          cases hv
          exact hsub _ (Finset.mem_insert_self _ _)
        · exact hmem p h v hv
    | none =>
      have hin : page_num_stale ∈ failed_set := by
        rcases hsafe with h | h
        · exact h
        · have := h q (by simp)
          rw [hq] at this
          cases this
      obtain ⟨s, hrun, hsub, hmem⟩ := ih urls hsafe'
      refine ⟨s, ?_, hsub, ?_⟩
      · simp only [redo_failed_pages, hq, if_pos hin]
        exact hrun
      · intro p hp v hv
        rcases List.mem_cons.mp hp with h | h
        · subst h
          rw [hq] at hv
          cases hv
        · exact hmem p h v hv

/-- C7 counterexample: a second-pass run of `vitalsource.py` over deferred
pages 7 and 8, where page 7's retry re-fails and the stale main-loop cursor
(42) is not in the deferred set.  Although page 8's retry would resolve (its
log holds a matching image URL), the pass stops with the uncaught
`RuntimeError` from mutating the set mid-iteration: page 8 is never retried
and the run dies — refuting "retried in a second pass" and "the failure is
not fatal to the run". -/
theorem c7_counterexample :
    resolve_url
        ((fun p _ => if p = 8 then
          ["https://jigsaw.vitalsource.com/books/123/images/99"] else []) 8)
        "https://jigsaw.vitalsource.com/books/123/images/" =
      some "https://jigsaw.vitalsource.com/books/123/images" ∧
      redo_failed_pages [7, 8] 42 (insert 7 (insert 8 (∅ : Finset ℕ)))
          (fun p _ => if p = 8 then
            ["https://jigsaw.vitalsource.com/books/123/images/99"] else [])
          (fun _ => PLabel.num 8)
          "https://jigsaw.vitalsource.com/books/123/images/" ∅ =
        .error "RuntimeError: Set changed size during iteration" := by
  exact ⟨by decide, rfl⟩

/-- C7 amended: a page whose resource URL is not matched by any of the nine
scans of the retry budget resolves to `none` (no exception — the unresolved
outcome is an ordinary value), the main loop defers exactly that page,
leaving the URL store untouched, and the run continues.  The second pass
iterates the deferred set and retries each page: in `vitalsource_new.py` it
always completes, recording the `(current page, base_url)` of every deferred
page whose retry resolves; in `vitalsource.py` that guarantee holds only
while no re-failure mutates the set — i.e. when the stale main-loop cursor
is already in the deferred set or every retry resolves — because a
re-failure with the stale cursor outside the set raises `RuntimeError`,
aborting the pass (and the run) before the remaining deferred pages are
retried. -/
theorem unresolved_page_deferred (obs : ℕ → List String) (pat : String)
    (page_num : ℕ) (cur : PLabel) (failed_pages : Finset ℕ)
    (urls : Finset (PLabel × String))
    (hn : ∀ i, i < 9 → ∀ r ∈ obs i, pyStartsWith r pat = false) :
    resolve_url obs pat = none ∧
      main_pass_record page_num cur (resolve_url obs pat) failed_pages urls =
        (insert page_num failed_pages, urls) ∧
      page_num ∈ (main_pass_record page_num cur (resolve_url obs pat)
        failed_pages urls).1 ∧
      (∀ (failedL : List ℕ) (obsOf : ℕ → ℕ → List String) (curOf : ℕ → PLabel)
          (urls0 : Finset (PLabel × String)) (u : String),
        page_num ∈ failedL → resolve_url (obsOf page_num) pat = some u →
        (curOf page_num, u) ∈
          redo_failed_pages_new failedL obsOf curOf pat urls0) ∧
      (∀ (failedL : List ℕ) (stale : ℕ) (fset : Finset ℕ)
          (obsOf : ℕ → ℕ → List String) (curOf : ℕ → PLabel)
          (urls0 : Finset (PLabel × String)) (u : String),
        (stale ∈ fset ∨ ∀ q ∈ failedL, (resolve_url (obsOf q) pat).isSome) →
        page_num ∈ failedL → resolve_url (obsOf page_num) pat = some u →
        ∃ s, redo_failed_pages failedL stale fset obsOf curOf pat urls0 =
            .ok s ∧ (curOf page_num, u) ∈ s) ∧
      ∀ (p : ℕ) (rest : List ℕ) (stale : ℕ) (fset : Finset ℕ)
          (obsOf : ℕ → ℕ → List String) (curOf : ℕ → PLabel)
          (urls0 : Finset (PLabel × String)),
        stale ∉ fset → resolve_url (obsOf p) pat = none →
        redo_failed_pages (p :: rest) stale fset obsOf curOf pat urls0 =
          .error "RuntimeError: Set changed size during iteration" := by
  have hres : resolve_url obs pat = none := by
    have e0 := find_img_round_none obs pat 0 none
      (hn 0 (by omega)) (hn 1 (by omega)) (hn 2 (by omega))
    have e3 := find_img_round_none obs pat 3 none
      (hn 3 (by omega)) (hn 4 (by omega)) (hn 5 (by omega))
    have e6 := find_img_round_none obs pat 6 none
      (hn 6 (by omega)) (hn 7 (by omega)) (hn 8 (by omega))
    unfold resolve_url
    rw [e0, e3, e6]
  refine ⟨hres, ?_, ?_, ?_, ?_, ?_⟩
  · rw [hres]; rfl
  · rw [hres]
    exact Finset.mem_insert_self _ _
  · intro failedL obsOf curOf urls0 u hp hru
    exact redo_new_mem failedL obsOf curOf pat urls0 page_num u hp hru
  · intro failedL stale fset obsOf curOf urls0 u hsafe hp hru
    obtain ⟨s, hrun, _, hmem⟩ :=
      redo_ok_of failedL stale fset obsOf curOf pat urls0 hsafe
    exact ⟨s, hrun, hmem page_num hp u hru⟩
  · intro p rest stale fset obsOf curOf urls0 hnotin hru
    simp only [redo_failed_pages, hru, if_neg hnotin]

/-- Closed instance of the amended C7 theorem: page 7 stays unresolved and
deferred under a non-matching log; a `vitalsource_new.py` second pass
records its resolving retry; a `vitalsource.py` second pass does the same
when the stale cursor (42) causes no mutation because the retry resolves;
and with a never-matching retry log and the stale cursor outside the set,
the `vitalsource.py` pass returns the `RuntimeError`. -/
theorem unresolved_page_deferred_witness :
    resolve_url (fun _ => ["https://other.example/a/b"])
        "https://jigsaw.vitalsource.com/books/123/images/" = none ∧
      main_pass_record 7 (.num 7)
          (resolve_url (fun _ => ["https://other.example/a/b"])
            "https://jigsaw.vitalsource.com/books/123/images/") ∅ ∅ =
        (insert 7 ∅, ∅) ∧
      (PLabel.num 7, "https://jigsaw.vitalsource.com/books/123/images") ∈
        redo_failed_pages_new [7]
          (fun _ _ => ["https://jigsaw.vitalsource.com/books/123/images/99"])
          (fun _ => PLabel.num 7)
          "https://jigsaw.vitalsource.com/books/123/images/" ∅ ∧
      (∃ s, redo_failed_pages [7] 42 (insert 7 (∅ : Finset ℕ))
          (fun _ _ => ["https://jigsaw.vitalsource.com/books/123/images/99"])
          (fun _ => PLabel.num 7)
          "https://jigsaw.vitalsource.com/books/123/images/" ∅ = .ok s ∧
        (PLabel.num 7, "https://jigsaw.vitalsource.com/books/123/images") ∈ s) ∧
      redo_failed_pages [7] 42 (insert 7 (∅ : Finset ℕ))
          (fun _ _ => []) (fun _ => PLabel.num 7)
          "https://jigsaw.vitalsource.com/books/123/images/" ∅ =
        .error "RuntimeError: Set changed size during iteration" := by
  have h := unresolved_page_deferred (fun _ => ["https://other.example/a/b"])
    "https://jigsaw.vitalsource.com/books/123/images/" 7 (.num 7) ∅ ∅
    (by decide)
  refine ⟨h.1, h.2.1, ?_, ?_, ?_⟩
  · exact h.2.2.2.1 [7]
      (fun _ _ => ["https://jigsaw.vitalsource.com/books/123/images/99"])
      (fun _ => PLabel.num 7) ∅
      "https://jigsaw.vitalsource.com/books/123/images"
      (by decide) (by decide)
  · exact h.2.2.2.2.1 [7] 42 (insert 7 (∅ : Finset ℕ))
      (fun _ _ => ["https://jigsaw.vitalsource.com/books/123/images/99"])
      (fun _ => PLabel.num 7) ∅
      "https://jigsaw.vitalsource.com/books/123/images"
      (Or.inr (by decide)) (by decide) (by decide)
  · exact h.2.2.2.2.2 7 [] 42 (insert 7 (∅ : Finset ℕ))
      (fun _ _ => []) (fun _ => PLabel.num 7) ∅
      (by decide) (by decide)

/-! ## Page-numbering schemes (vitalsource.py 464-503, vitalsource_new.py 632-671)

`romans_end` counts the `str`-typed entries of the sequenced label list (all
non-integer labels, roman or not).  If it is positive, exactly three
`PageLabelScheme` ranges are appended: start page 0 style `none` with the
`Cover` label text, start page 1 lower-case roman from 1, start page
`romans_end` arabic from 1.  Otherwise no scheme is applied. -/

/-- C2 counterexample: a file set with one opaque non-roman label (`intro`)
and no roman-labeled page, on which the code nevertheless applies the
numbering scheme — the scheme trigger is "some non-integer label exists",
not "some roman-labeled page exists". -/
theorem c2_counterexample :
    roman_label_count [PLabel.str "intro", PLabel.num 1] = 0 ∧
      page_label_schemes [PLabel.str "intro", PLabel.num 1] ≠ [] := by
  exact ⟨by decide, by decide⟩

/-- C2 amended: when at least one non-integer (string) label exists — roman
or opaque — exactly the three ranges are applied, and they label page 0
`Cover` (style `none`), pages `1 .. S-1` lowercase-roman from 1 and pages
`S ..` arabic from 1, where `S` is the count of non-integer labels; when
every label is an integer, no scheme is applied. -/
theorem page_label_schemes_spec (l : List PLabel) (page : ℕ) :
    (romans_end_of l = 0 → page_label_schemes l = []) ∧
      (0 < romans_end_of l →
        page_label_schemes l =
          [ ⟨0, "none", some "Cover", 1⟩,
            ⟨1, "roman lowercase", none, 1⟩,
            ⟨romans_end_of l, "arabic", none, 1⟩ ] ∧
        scheme_for (page_label_schemes l) 0 = some ⟨0, "none", some "Cover", 1⟩ ∧
        (0 < page → page < romans_end_of l →
          scheme_for (page_label_schemes l) page =
            some ⟨1, "roman lowercase", none, 1⟩) ∧
        (romans_end_of l ≤ page →
          scheme_for (page_label_schemes l) page =
            some ⟨romans_end_of l, "arabic", none, 1⟩)) := by
  constructor
  · intro h
    simp [page_label_schemes, h]
  · intro hS
    have hsch : page_label_schemes l =
        [ ⟨0, "none", some "Cover", 1⟩,
          ⟨1, "roman lowercase", none, 1⟩,
          ⟨romans_end_of l, "arabic", none, 1⟩ ] := by
      simp [page_label_schemes, hS]
    refine ⟨hsch, ?_, ?_, ?_⟩
    · rw [hsch]
      have h1 : ¬ (1 ≤ 0) := by omega
      have h2 : ¬ (romans_end_of l ≤ 0) := by omega
      simp [scheme_for, List.filter, h1, h2]
    · intro hp1 hp2
      rw [hsch]
      have h1p : 1 ≤ page := hp1
      have h2 : ¬ (romans_end_of l ≤ page) := by omega
      simp [scheme_for, List.filter, h1p, h2]
    · intro hp
      rw [hsch]
      have h0 : (0 : ℕ) ≤ page := by omega
      have h1 : 1 ≤ page := by omega
      simp [scheme_for, List.filter, h0, h1, hp]

/-- Closed instance of the amended page-label-scheme theorem at a one-roman,
one-integer file set. -/
theorem page_label_schemes_spec_witness :
    page_label_schemes [PLabel.str "i", PLabel.num 1] =
        [ ⟨0, "none", some "Cover", 1⟩,
          ⟨1, "roman lowercase", none, 1⟩,
          ⟨1, "arabic", none, 1⟩ ] ∧
      scheme_for (page_label_schemes [PLabel.str "i", PLabel.num 1]) 1 =
        some ⟨1, "arabic", none, 1⟩ := by
  have h := (page_label_schemes_spec [PLabel.str "i", PLabel.num 1] 1).2 (by decide)
  exact ⟨h.1, h.2.2.2 (by decide)⟩

/-! ## The blank-page check ("Gap Filler", vitalsource.py 393-407, vitalsource_new.py 560-575)

With `non_number_pages` (recounted from the string labels when the scrape
phase left it 0), the loop walks the sequenced list; for each `int`-typed
label `k > 0` it computes `page_i = k + non_number_pages` and reads
`existing_page_files[page_i - 1]` from the *fixed* list — raising
`IndexError` when the index is out of range — and, when that entry is an
int whose offset-adjusted value is not `page_i - 1`, writes a blank image
named `int(page) - 1`.  The list is not re-read during the loop. -/

/-- C1, evaluated at the failing input: for the file set with integer labels
0 and 3 (pages 1 and 2 missing) and no non-numeric labels, the blank-page
check raises `IndexError` (`existing_page_files[2]` on a 2-element list)
instead of completing with a contiguous offset-adjusted sequence. -/
theorem gap_fill_pass_index_error :
    gap_fill_pass [PLabel.num 0, PLabel.num 3]
        (nnpOf 0 [PLabel.num 0, PLabel.num 3]) = none ∧
      nnpOf 0 [PLabel.num 0, PLabel.num 3] = 0 := by
  exact ⟨rfl, rfl⟩

/-- Supporting evidence for the blank-page check divergence: with exactly one
missing page (integer labels 0, 1, 3, 4 — page 2 missing), the pass does
complete, but it creates blank images labelled 2 and 3 — the latter
overwriting the real page-3 file that is present in the input set, because
the predecessor lookup reads each later page's own list entry. -/
theorem gap_fill_pass_overwrites_real_page :
    gap_fill_pass [PLabel.num 0, PLabel.num 1, PLabel.num 3, PLabel.num 4]
        (nnpOf 0 [PLabel.num 0, PLabel.num 1, PLabel.num 3, PLabel.num 4]) =
      some [2, 3] ∧
      PLabel.num 3 ∈
        [PLabel.num 0, PLabel.num 1, PLabel.num 3, PLabel.num 4] := by
  exact ⟨rfl, by decide⟩
